import Mathlib

/-!
Shallow embedding of `src/server.js` (manest-server): a contact-form backend
with one validation function (`validatePayload`), a two-tier mail-transport
resolver (`getTransporter`), and the `POST /api/contact` request handler.

JavaScript values reaching the handler from a parsed JSON body are modelled
by `JSVal`; JS truthiness, `typeof v === "string"`, string coercion in
template literals, and the `a || b` default chains on environment variables
are modelled explicitly.
-/

set_option autoImplicit false

/-- A JSON-decoded JavaScript value as it appears in `req.body` fields.
Numbers are modelled as integers: the claims only discriminate string vs.
non-string and truthy vs. falsy, for which `Int` suffices (NaN, which is
falsy, is not modelled; no claim depends on it). -/
inductive JSVal where
  | str (s : String)
  | num (n : Int)
  | bool (b : Bool)
  | null
  | undefined
  | arr (elems : List JSVal)
  | obj

/-- JS truthiness of a `JSVal` ("", 0, false, null, undefined are falsy;
objects and arrays are truthy). -/
def truthy : JSVal → Bool
  | JSVal.str s => s != ""
  | JSVal.num n => n != 0
  | JSVal.bool b => b
  | JSVal.null => false
  | JSVal.undefined => false
  | JSVal.arr _ => true
  | JSVal.obj => true

mutual

/-- JS `String(v)` as used by template-literal interpolation. Array
conversion is `Array.prototype.join(",")`, which maps null/undefined
elements to the empty string. -/
def jsToString : JSVal → String
  | JSVal.str s => s
  | JSVal.num n => toString n
  | JSVal.bool b => bif b then "true" else "false"
  | JSVal.null => "null"
  | JSVal.undefined => "undefined"
  | JSVal.obj => "[object Object]"
  | JSVal.arr xs => jsJoin xs

/-- `Array.prototype.join(",")` over the elements: null/undefined elements
render empty, separators are still inserted. -/
def jsJoin : List JSVal → String
  | [] => ""
  | [JSVal.null] => ""
  | [JSVal.undefined] => ""
  | [x] => jsToString x
  | JSVal.null :: y :: ys => "," ++ jsJoin (y :: ys)
  | JSVal.undefined :: y :: ys => "," ++ jsJoin (y :: ys)
  | x :: y :: ys => jsToString x ++ "," ++ jsJoin (y :: ys)

end

/-- `typeof v === "string"`. -/
def isStringVal : JSVal → Bool
  | JSVal.str _ => true
  | _ => false

/-- The fields of `req.body` that `src/server.js` reads. An absent JSON key
reads as `undefined` in JS, hence the `undefined` defaults. -/
structure Body where
  firstName : JSVal := JSVal.undefined
  lastName : JSVal := JSVal.undefined
  email : JSVal := JSVal.undefined
  phone : JSVal := JSVal.undefined
  projectType : JSVal := JSVal.undefined
  message : JSVal := JSVal.undefined
  company : JSVal := JSVal.undefined

/-- `ALLOWED_TYPES` from `src/server.js` (a `Set` of six strings). -/
def ALLOWED_TYPES : List String :=
  ["landing", "website", "ecommerce", "info-app", "booking-app", "custom"]

/-- `ALLOWED_TYPES.has(v)`: the set holds only strings, so under
SameValueZero membership any non-string value is absent. -/
def allowedHas : JSVal → Bool
  | JSVal.str s => ALLOWED_TYPES.contains s
  | _ => false

/-- The whitespace characters `String.prototype.trim` strips (the common
ones; the exotic Unicode space separators do not appear in this
development). -/
def jsWhitespace (c : Char) : Bool :=
  c = ' ' || c = '\t' || c = '\n' || c = '\r' ||
  c = '\x0b' || c = '\x0c' || c = '\u00A0'

/-- JS `s.trim()`: strip leading and trailing whitespace. Modelled over the
character list with structural recursion, so concrete instances evaluate
inside `decide`/`rfl` proofs. -/
def jsTrim (s : String) : String :=
  ⟨((s.data.dropWhile jsWhitespace).reverse.dropWhile jsWhitespace).reverse⟩

/-- `reqStr` from `validatePayload`:
`typeof v === "string" && v.trim().length > 0`. -/
def reqStr : JSVal → Bool
  | JSVal.str s => decide (0 < (jsTrim s).length)
  | _ => false

def ERR_FIRST : String := "الاسم الأول مطلوب."

def ERR_LAST : String := "الاسم الأخير مطلوب."

def ERR_EMAIL : String := "البريد الإلكتروني مطلوب."

def ERR_PHONE : String := "رقم الهاتف مطلوب."

def ERR_MESSAGE : String := "نص الرسالة مطلوب."

def ERR_TYPE : String := "قيمة نوع المشروع غير صالحة."

/-- `validatePayload(body)` from `src/server.js`: pushes one error string
per failed check, in source order (firstName, lastName, email, phone,
message, then projectType enum membership guarded by truthiness). -/
def validatePayload (body : Body) : List String :=
  (bif reqStr body.firstName then [] else [ERR_FIRST]) ++
  (bif reqStr body.lastName then [] else [ERR_LAST]) ++
  (bif reqStr body.email then [] else [ERR_EMAIL]) ++
  (bif reqStr body.phone then [] else [ERR_PHONE]) ++
  (bif reqStr body.message then [] else [ERR_MESSAGE]) ++
  (bif truthy body.projectType && !allowedHas body.projectType then [ERR_TYPE] else [])

/-- The two transports `getTransporter` can produce: the real SMTP
transport, or the buffering stream ("console") transport used as fallback. -/
inductive Transporter where
  | smtp
  | consoleFallback
  deriving Repr, DecidableEq

/-- The environment variables `src/server.js` reads around mail dispatch.
`none` models an unset variable; a set-but-empty variable is `some ""`
(JS `||` treats both as falsy). -/
structure Env where
  SMTP_USER : Option String := none
  SMTP_PASS : Option String := none
  MAIL_FROM : Option String := none
  MAIL_TO : Option String := none
  deriving Repr, DecidableEq

/-- JS `a || b` where `a` is an environment-variable read (string or
undefined): unset and empty string are both falsy. -/
def jsOr (a : Option String) (b : String) : String :=
  match a with
  | some s => bif s != "" then s else b
  | none => b

/-- The `auth` option passed to `createTransport`:
`(SMTP_USER && SMTP_PASS) ? \x7buser, pass\x7d : undefined`. -/
def smtpAuth (env : Env) : Option (String × String) :=
  match env.SMTP_USER, env.SMTP_PASS with
  | some u, some p => bif u != "" && p != "" then some (u, p) else none
  | _, _ => none

/-- External effects observed during one request: whether
`nodemailer.createTransport` throws, whether `transporter.verify()`
succeeds, and whether `sendMail` on the real SMTP transport throws. The
fallback stream transport buffers the message in memory with no network
I/O, so its send is modelled as infallible. -/
structure World where
  createThrows : Bool := false
  verifyOk : Bool := true
  smtpSendThrows : Bool := false
  deriving Repr, DecidableEq

/-- `getTransporter()` from `src/server.js`: build the SMTP transport and
try `verify()`; the verify call is wrapped in try/catch, and on failure the
function returns the buffering stream transport instead of throwing.
`Except.error` models an exception escaping the function (transport
construction is outside the guard). -/
def getTransporter (w : World) : Except Unit Transporter :=
  bif w.createThrows then Except.error ()
  else bif w.verifyOk then Except.ok Transporter.smtp
  else Except.ok Transporter.consoleFallback

def MSG_ACK : String := "تم الاستلام."

def MSG_SUCCESS : String := "تم استلام رسالتك بنجاح"

def MSG_SEND_FAILED : String := "خطأ في الإرسال"

def MAIL_SUBJECT : String := "رسالة جديدة من نموذج التواصل"

/-- The plain-text mail body composed in the handler (the JS template
literal; `$\x7bv\x7d` interpolates `String(v)` and the project-type slot is
`projectType || "-"`). -/
def composeText (firstName lastName email phone projectType message : JSVal) : String :=
  "الاسم: " ++ jsToString firstName ++ " " ++ jsToString lastName ++ "\n" ++
  "البريد: " ++ jsToString email ++ "\n" ++
  "الهاتف: " ++ jsToString phone ++ "\n" ++
  "نوع المشروع: " ++ (bif truthy projectType then jsToString projectType else "-") ++ "\n" ++
  "---\n" ++
  jsToString message

/-- The HTML mail body composed in the handler (same interpolations as the
text body, inside the fixed markup of the template literal). -/
def composeHtml (firstName lastName email phone projectType message : JSVal) : String :=
  "\n      <div style=\"font-family:system-ui,-apple-system,Segoe UI,Roboto,Ubuntu,Cairo,sans-serif;line-height:1.6\">\n" ++
  "        <h2>رسالة جديدة</h2>\n" ++
  "        <ul>\n" ++
  "          <li><b>الاسم:</b> " ++ jsToString firstName ++ " " ++ jsToString lastName ++ "</li>\n" ++
  "          <li><b>البريد:</b> " ++ jsToString email ++ "</li>\n" ++
  "          <li><b>الهاتف:</b> " ++ jsToString phone ++ "</li>\n" ++
  "          <li><b>نوع المشروع:</b> " ++ (bif truthy projectType then jsToString projectType else "-") ++ "</li>\n" ++
  "        </ul>\n" ++
  "        <pre style=\"white-space:pre-wrap;background:#f7f7f7;padding:12px;border-radius:8px\">" ++ jsToString message ++ "</pre>\n" ++
  "      </div>\n    "

/-- The argument record of `transporter.sendMail` (`from_`/`to_` are the JS
`from`/`to` keys, which are Lean keywords). -/
structure MailMsg where
  from_ : String
  to_ : String
  replyTo : String
  subject : String
  text : String
  html : String
  deriving Repr, DecidableEq

/-- `from: process.env.MAIL_FROM || process.env.SMTP_USER || "no-reply@example.com"`. -/
def fromAddr (env : Env) : String :=
  jsOr env.MAIL_FROM (jsOr env.SMTP_USER "no-reply@example.com")

/-- `to: process.env.MAIL_TO || process.env.SMTP_USER || email` (the
submitter's email is a validated non-blank string, hence truthy). -/
def toAddr (env : Env) (email : String) : String :=
  jsOr env.MAIL_TO (jsOr env.SMTP_USER email)

/-- An HTTP JSON response of the contact route: status code plus the
`ok`/`message` body, and the `errors` array (present only on validation
failure; `[]` models absence). -/
structure Response where
  status : Nat
  ok : Bool
  message : String
  errors : List String := []
  deriving Repr, DecidableEq

/-- Everything observable about one handled request: the response, whether
`sendMail` was invoked, with which message, and on which transport. -/
structure Outcome where
  response : Response
  dispatched : Bool
  mail : Option MailMsg
  transporter : Option Transporter
  deriving Repr, DecidableEq

/-- The honeypot gate:
`typeof req.body.company === "string" && req.body.company.trim() !== ""`. -/
def isHoneypot (body : Body) : Bool :=
  match body.company with
  | JSVal.str s => jsTrim s != ""
  | _ => false

/-- The destructuring default `projectType = ""` (applies only when the
field is `undefined`). -/
def defaultedProjectType : JSVal → JSVal
  | JSVal.undefined => JSVal.str ""
  | v => v

/-- The record passed to `validatePayload` by the route: the destructured
fields, with `projectType` defaulted. -/
def checkedBody (body : Body) : Body :=
  { body with projectType := defaultedProjectType body.projectType }

/-- The `POST /api/contact` handler from `src/server.js`: honeypot gate,
validation (400 with first error plus the list), then the try/catch block
resolving a transport and sending the mail (500 with a fixed generic
message on any exception), else the 200 success response. -/
def handleContact (env : Env) (w : World) (body : Body) : Outcome :=
  bif isHoneypot body then
    { response := { status := 200, ok := true, message := MSG_ACK },
      dispatched := false, mail := none, transporter := none }
  else
    match validatePayload (checkedBody body) with
    | e :: es =>
      { response := { status := 400, ok := false, message := e, errors := e :: es },
        dispatched := false, mail := none, transporter := none }
    | [] =>
      match getTransporter w with
      | Except.error _ =>
        { response := { status := 500, ok := false, message := MSG_SEND_FAILED },
          dispatched := false, mail := none, transporter := none }
      | Except.ok t =>
        let pt := defaultedProjectType body.projectType
        let msg : MailMsg :=
          { from_ := fromAddr env,
            to_ := toAddr env (jsToString body.email),
            replyTo := jsToString body.email,
            subject := MAIL_SUBJECT,
            text := composeText body.firstName body.lastName body.email body.phone pt body.message,
            html := composeHtml body.firstName body.lastName body.email body.phone pt body.message }
        bif (t == Transporter.smtp) && w.smtpSendThrows then
          { response := { status := 500, ok := false, message := MSG_SEND_FAILED },
            dispatched := true, mail := some msg, transporter := some t }
        else
          { response := { status := 200, ok := true, message := MSG_SUCCESS },
            dispatched := true, mail := some msg, transporter := some t }

/-! ### Helper lemmas about the validator -/

/-- The six validator messages in the order they can be pushed. -/
def ALL_MESSAGES : List String :=
  [ERR_FIRST, ERR_LAST, ERR_EMAIL, ERR_PHONE, ERR_MESSAGE, ERR_TYPE]

theorem mem_cond_nil_singleton (c : Bool) (e a : String) :
    a ∈ (bif c then [] else [e]) ↔ c = false ∧ a = e := by
  cases c <;> simp

theorem mem_cond_singleton_nil (c : Bool) (e a : String) :
    a ∈ (bif c then [e] else []) ↔ c = true ∧ a = e := by
  cases c <;> simp

theorem mem_validate_first (b : Body) :
    ERR_FIRST ∈ validatePayload b ↔ reqStr b.firstName = false := by
  simp [validatePayload, mem_cond_nil_singleton, mem_cond_singleton_nil,
    ERR_FIRST, ERR_LAST, ERR_EMAIL, ERR_PHONE, ERR_MESSAGE, ERR_TYPE]

theorem mem_validate_last (b : Body) :
    ERR_LAST ∈ validatePayload b ↔ reqStr b.lastName = false := by
  simp [validatePayload, mem_cond_nil_singleton, mem_cond_singleton_nil,
    ERR_FIRST, ERR_LAST, ERR_EMAIL, ERR_PHONE, ERR_MESSAGE, ERR_TYPE]

theorem mem_validate_email (b : Body) :
    ERR_EMAIL ∈ validatePayload b ↔ reqStr b.email = false := by
  simp [validatePayload, mem_cond_nil_singleton, mem_cond_singleton_nil,
    ERR_FIRST, ERR_LAST, ERR_EMAIL, ERR_PHONE, ERR_MESSAGE, ERR_TYPE]

theorem mem_validate_phone (b : Body) :
    ERR_PHONE ∈ validatePayload b ↔ reqStr b.phone = false := by
  simp [validatePayload, mem_cond_nil_singleton, mem_cond_singleton_nil,
    ERR_FIRST, ERR_LAST, ERR_EMAIL, ERR_PHONE, ERR_MESSAGE, ERR_TYPE]

theorem mem_validate_message (b : Body) :
    ERR_MESSAGE ∈ validatePayload b ↔ reqStr b.message = false := by
  simp [validatePayload, mem_cond_nil_singleton, mem_cond_singleton_nil,
    ERR_FIRST, ERR_LAST, ERR_EMAIL, ERR_PHONE, ERR_MESSAGE, ERR_TYPE]

theorem mem_validate_ptype (b : Body) :
    ERR_TYPE ∈ validatePayload b ↔
      (truthy b.projectType && !allowedHas b.projectType) = true := by
  simp [validatePayload, mem_cond_nil_singleton, mem_cond_singleton_nil,
    ERR_FIRST, ERR_LAST, ERR_EMAIL, ERR_PHONE, ERR_MESSAGE, ERR_TYPE]

theorem cond_nil_singleton_sublist (c : Bool) (e : String) :
    List.Sublist (bif c then [] else [e]) [e] := by
  cases c <;> simp

theorem cond_singleton_nil_sublist (c : Bool) (e : String) :
    List.Sublist (bif c then [e] else []) [e] := by
  cases c <;> simp

/-- The validator's output is always an in-order selection from the six
messages (errors are appended in the fixed source order). -/
theorem validate_sublist (b : Body) :
    List.Sublist (validatePayload b) ALL_MESSAGES := by
  unfold validatePayload ALL_MESSAGES
  exact List.Sublist.append
    (List.Sublist.append
      (List.Sublist.append
        (List.Sublist.append
          (List.Sublist.append (cond_nil_singleton_sublist _ _)
            (cond_nil_singleton_sublist _ _))
          (cond_nil_singleton_sublist _ _))
        (cond_nil_singleton_sublist _ _))
      (cond_nil_singleton_sublist _ _))
    (cond_singleton_nil_sublist _ _)

/-- The destructuring default (`projectType = ""` when undefined) does not
change the validator's verdict: both `""` and `undefined` are falsy. -/
theorem validate_checkedBody (b : Body) :
    validatePayload (checkedBody b) = validatePayload b := by
  cases h : b.projectType <;>
    simp [validatePayload, checkedBody, defaultedProjectType, h, truthy]

/-! ### Helper lemmas about the request handler -/

/-- On a non-honeypot request with a failing validation, the route answers
400 with the first error as the message and the full list as `errors`. -/
theorem handleContact_400 (env : Env) (w : World) (b : Body)
    (hhp : isHoneypot b = false) (hne : validatePayload b ≠ []) :
    (handleContact env w b).response.status = 400 ∧
    (handleContact env w b).response.ok = false ∧
    (handleContact env w b).response.message = (validatePayload b).headD "" ∧
    (handleContact env w b).response.errors = validatePayload b := by
  cases hval : validatePayload b with
  | nil => exact absurd hval hne
  | cons e es => simp [handleContact, hhp, validate_checkedBody, hval]

/-- Any message in the validator's output forces the 400 rejection. -/
theorem missing_field_400 (env : Env) (w : World) (b : Body) (msg : String)
    (hhp : isHoneypot b = false) (hm : msg ∈ validatePayload b) :
    validatePayload b ≠ [] ∧
    (handleContact env w b).response.status = 400 ∧
    (handleContact env w b).response.ok = false := by
  have hne := List.ne_nil_of_mem hm
  exact ⟨hne, (handleContact_400 env w b hhp hne).1,
    (handleContact_400 env w b hhp hne).2.1⟩

theorem consoleFallback_beq_smtp :
    (Transporter.consoleFallback == Transporter.smtp) = false := rfl

theorem smtp_beq_smtp : (Transporter.smtp == Transporter.smtp) = true := rfl

/-- On a non-honeypot, valid request whose transport construction does not
throw, `sendMail` is invoked with the composed message. -/
theorem handleContact_mail (env : Env) (w : World) (b : Body)
    (hhp : isHoneypot b = false) (hval : validatePayload b = [])
    (hc : w.createThrows = false) :
    (handleContact env w b).mail = some
      { from_ := fromAddr env,
        to_ := toAddr env (jsToString b.email),
        replyTo := jsToString b.email,
        subject := MAIL_SUBJECT,
        text := composeText b.firstName b.lastName b.email b.phone
          (defaultedProjectType b.projectType) b.message,
        html := composeHtml b.firstName b.lastName b.email b.phone
          (defaultedProjectType b.projectType) b.message } ∧
    (handleContact env w b).dispatched = true := by
  cases hv : w.verifyOk <;> cases hs : w.smtpSendThrows <;>
    simp [handleContact, hhp, validate_checkedBody, hval, getTransporter, hc, hv, hs,
      consoleFallback_beq_smtp, smtp_beq_smtp]

/-! ### Concrete example inputs -/

def env0 : Env := {}

def w0 : World := {}

/-- The spec's round-trip example submission, fully valid. -/
def saraBody : Body :=
  { firstName := JSVal.str "Sara", lastName := JSVal.str "Ali",
    email := JSVal.str "sara@example.com", phone := JSVal.str "0500000000",
    projectType := JSVal.str "landing", message := JSVal.str "Hello" }

/-- A submission with every field absent (all `undefined`). -/
def missingAllBody : Body := {}

/-- A submission with a blank required field (`firstName` absent) but a
non-empty honeypot field. -/
def honeypotMissingField : Body :=
  { lastName := JSVal.str "Ali", email := JSVal.str "a@b.example",
    phone := JSVal.str "0500000000", message := JSVal.str "hi",
    company := JSVal.str "bot" }

/-- A fully valid submission whose `company` is the one-character string
`" "`: non-empty, but blank after trimming. -/
def blankCompanyBody : Body :=
  { firstName := JSVal.str "Sara", lastName := JSVal.str "Ali",
    email := JSVal.str "sara@example.com", phone := JSVal.str "0500000000",
    projectType := JSVal.str "landing", message := JSVal.str "Hello",
    company := JSVal.str " " }

/-- A submission whose required fields hold present, non-empty, but
non-string values. -/
def nonStringBody : Body :=
  { firstName := JSVal.num 5, lastName := JSVal.bool true,
    email := JSVal.arr [JSVal.num 1], phone := JSVal.obj,
    message := JSVal.null }

/-- A bot submission: only the honeypot field is filled. -/
def botBody : Body := { company := JSVal.str "bot" }

/-- The round-trip example with an out-of-enumeration project type. -/
def weirdTypeBody : Body := { saraBody with projectType := JSVal.str "blog" }

/-- A world in which the SMTP verify step fails. -/
def wVerifyFail : World := { verifyOk := false }

/-- A world in which transport construction throws. -/
def wCreateThrows : World := { createThrows := true }

/-- A world in which `sendMail` on the SMTP transport throws. -/
def wSendThrows : World := { smtpSendThrows := true }

/-- An environment with every mail variable set non-empty. -/
def envFull : Env :=
  { SMTP_USER := some "smtp-user@example.com", SMTP_PASS := some "p",
    MAIL_FROM := some "from@example.com", MAIL_TO := some "to@example.com" }

/-! ### Spec-side address selection (refinement targets for the defaults) -/

/-- Interprets an environment variable as "set": present with a non-empty
value (the JS `||` chains cannot distinguish empty from unset). -/
def setVar : Option String → Option String
  | some s => bif s == "" then none else some s
  | none => none

/-- The sender rule as the spec words it: `MAIL_FROM` if set, else
`SMTP_USER` if set, else the fixed placeholder address. -/
def specSender (env : Env) : String :=
  ((setVar env.MAIL_FROM).orElse fun _ => setVar env.SMTP_USER).getD
    "no-reply@example.com"

/-- The recipient rule as the spec words it: `MAIL_TO` if set, else
`SMTP_USER` if set, else the submitter's own email address. -/
def specRecipient (env : Env) (submitter : String) : String :=
  ((setVar env.MAIL_TO).orElse fun _ => setVar env.SMTP_USER).getD submitter

theorem jsOr_eq_setVar_getD (a : Option String) (b : String) :
    jsOr a b = (setVar a).getD b := by
  cases a with
  | none => rfl
  | some s =>
    by_cases hs : s = ""
    · subst hs; rfl
    · have h1 : (s != "") = true := bne_iff_ne.mpr hs
      have h2 : (s == "") = false := beq_eq_false_iff_ne.mpr hs
      simp [jsOr, setVar, h1, h2]

theorem orElse_getD (o1 o2 : Option String) (d : String) :
    ((o1.orElse fun _ => o2).getD d) = o1.getD (o2.getD d) := by
  cases o1 <;> rfl

/-- The JS default chain for the sender agrees with the spec's selection
rule. -/
theorem fromAddr_eq_specSender (env : Env) : fromAddr env = specSender env := by
  rw [fromAddr, specSender, jsOr_eq_setVar_getD, jsOr_eq_setVar_getD, orElse_getD]

/-- The JS default chain for the recipient agrees with the spec's selection
rule. -/
theorem toAddr_eq_specRecipient (env : Env) (submitter : String) :
    toAddr env submitter = specRecipient env submitter := by
  rw [toAddr, specRecipient, jsOr_eq_setVar_getD, jsOr_eq_setVar_getD, orElse_getD]

/-! ### The fixed response vocabulary -/

/-- The three fixed response messages of the route (acknowledgment,
success, generic failure). -/
def RESPONSE_FIXED : List String := [MSG_ACK, MSG_SUCCESS, MSG_SEND_FAILED]

/-- Every response message the route can produce is either one of the three
fixed messages or one of the six validator messages: no internal error
detail reaches the caller. -/
theorem response_message_fixed (env : Env) (w : World) (b : Body) :
    (handleContact env w b).response.message ∈ RESPONSE_FIXED ++ ALL_MESSAGES := by
  cases hhp : isHoneypot b with
  | true => simp [handleContact, hhp, RESPONSE_FIXED, ALL_MESSAGES]
  | false =>
    cases hval : validatePayload b with
    | cons e es =>
      have he : e ∈ ALL_MESSAGES :=
        (validate_sublist b).subset (by rw [hval]; exact List.mem_cons_self e es)
      have hmsg : (handleContact env w b).response.message = e := by
        simp [handleContact, hhp, validate_checkedBody, hval]
      rw [hmsg]
      exact List.mem_append.mpr (Or.inr he)
    | nil =>
      cases hc : w.createThrows with
      | true =>
        simp [handleContact, hhp, validate_checkedBody, hval, getTransporter, hc,
          RESPONSE_FIXED, ALL_MESSAGES]
      | false =>
        cases hv : w.verifyOk <;> cases hs : w.smtpSendThrows <;>
          simp [handleContact, hhp, validate_checkedBody, hval, getTransporter, hc,
            hv, hs, consoleFallback_beq_smtp, smtp_beq_smtp, RESPONSE_FIXED, ALL_MESSAGES]

/-! ### Claims -/

/-- C1 (counterexample): the claim quantifies over every submission, but a
submission with a blank required `firstName` and a non-empty honeypot
`company` is answered 200 — the honeypot gate runs before validation — even
though the validator would report the required-field error. -/
theorem c1_counterexample :
    reqStr honeypotMissingField.firstName = false ∧
    ERR_FIRST ∈ validatePayload honeypotMissingField ∧
    (handleContact env0 w0 honeypotMissingField).response.status = 200 ∧
    ¬((handleContact env0 w0 honeypotMissingField).response.status = 400) := by
  refine ⟨rfl, ?_, by decide, by decide⟩
  exact (mem_validate_first honeypotMissingField).mpr rfl

/-- C1 (amended): provided the honeypot gate does not fire, every
submission with a missing or blank required field gets the corresponding
message in a non-empty validator error list, and the route answers 400
with ok:false. -/
theorem c1_missing_required (env : Env) (w : World) (b : Body)
    (hhp : isHoneypot b = false) :
    (reqStr b.firstName = false →
      ERR_FIRST ∈ validatePayload b ∧ validatePayload b ≠ [] ∧
      (handleContact env w b).response.status = 400 ∧
      (handleContact env w b).response.ok = false) ∧
    (reqStr b.lastName = false →
      ERR_LAST ∈ validatePayload b ∧ validatePayload b ≠ [] ∧
      (handleContact env w b).response.status = 400 ∧
      (handleContact env w b).response.ok = false) ∧
    (reqStr b.email = false →
      ERR_EMAIL ∈ validatePayload b ∧ validatePayload b ≠ [] ∧
      (handleContact env w b).response.status = 400 ∧
      (handleContact env w b).response.ok = false) ∧
    (reqStr b.phone = false →
      ERR_PHONE ∈ validatePayload b ∧ validatePayload b ≠ [] ∧
      (handleContact env w b).response.status = 400 ∧
      (handleContact env w b).response.ok = false) ∧
    (reqStr b.message = false →
      ERR_MESSAGE ∈ validatePayload b ∧ validatePayload b ≠ [] ∧
      (handleContact env w b).response.status = 400 ∧
      (handleContact env w b).response.ok = false) := by
  refine ⟨fun h => ?_, fun h => ?_, fun h => ?_, fun h => ?_, fun h => ?_⟩
  · have hm := (mem_validate_first b).mpr h
    exact ⟨hm, missing_field_400 env w b ERR_FIRST hhp hm⟩
  · have hm := (mem_validate_last b).mpr h
    exact ⟨hm, missing_field_400 env w b ERR_LAST hhp hm⟩
  · have hm := (mem_validate_email b).mpr h
    exact ⟨hm, missing_field_400 env w b ERR_EMAIL hhp hm⟩
  · have hm := (mem_validate_phone b).mpr h
    exact ⟨hm, missing_field_400 env w b ERR_PHONE hhp hm⟩
  · have hm := (mem_validate_message b).mpr h
    exact ⟨hm, missing_field_400 env w b ERR_MESSAGE hhp hm⟩

/-- C1 amended, at a concrete input: the all-absent submission is rejected
with 400 and carries the first-name message. -/
theorem c1_missing_required_witness :
    ERR_FIRST ∈ validatePayload missingAllBody ∧
    (handleContact env0 w0 missingAllBody).response.status = 400 :=
  ⟨((c1_missing_required env0 w0 missingAllBody rfl).1 rfl).1,
   ((c1_missing_required env0 w0 missingAllBody rfl).1 rfl).2.2.1⟩

/-- C2 (counterexample): `company = " "` is a non-empty string, yet the
honeypot check trims it (`company.trim() !== ""`), so the request proceeds
to validation and the dispatcher IS invoked, and the response is the
dispatch success message, not the acknowledgment. -/
theorem c2_counterexample :
    blankCompanyBody.company = JSVal.str " " ∧
    (" " : String) ≠ "" ∧
    (handleContact env0 w0 blankCompanyBody).dispatched = true ∧
    ¬((handleContact env0 w0 blankCompanyBody).response.message = MSG_ACK) := by
  exact ⟨rfl, by decide, by decide, by decide⟩

/-- C2 (amended): when `company` is a string that is non-empty after
trimming, the route acknowledges with 200 ok:true and performs no
validation and no dispatch (no transport resolved, no mail composed). -/
theorem c2_honeypot_ack (env : Env) (w : World) (b : Body) (s : String)
    (hc : b.company = JSVal.str s) (hs : jsTrim s ≠ "") :
    handleContact env w b =
      { response := { status := 200, ok := true, message := MSG_ACK },
        dispatched := false, mail := none, transporter := none } := by
  have hhp : isHoneypot b = true := by
    simp only [isHoneypot, hc]
    exact bne_iff_ne.mpr hs
  simp [handleContact, hhp]

/-- C2 amended, at a concrete input: a bot submission with every other
field absent is still acknowledged with 200 and nothing is dispatched. -/
theorem c2_honeypot_ack_witness :
    handleContact env0 w0 botBody =
      { response := { status := 200, ok := true, message := MSG_ACK },
        dispatched := false, mail := none, transporter := none } :=
  c2_honeypot_ack env0 w0 botBody "bot" rfl (by decide)

/-- C3: when SMTP verify fails (and transport construction itself does not
throw), `getTransporter` returns the fallback transport rather than
throwing, the handler dispatches on the fallback, and the response is the
200 success. -/
theorem c3_verify_fallback (env : Env) (w : World) (b : Body)
    (hhp : isHoneypot b = false) (hval : validatePayload b = [])
    (hcreate : w.createThrows = false) (hverify : w.verifyOk = false) :
    getTransporter w = Except.ok Transporter.consoleFallback ∧
    (handleContact env w b).transporter = some Transporter.consoleFallback ∧
    (handleContact env w b).response =
      { status := 200, ok := true, message := MSG_SUCCESS } := by
  have hg : getTransporter w = Except.ok Transporter.consoleFallback := by
    simp [getTransporter, hcreate, hverify]
  refine ⟨hg, ?_, ?_⟩ <;>
    simp [handleContact, hhp, validate_checkedBody, hval, hg, consoleFallback_beq_smtp]

/-- C3 at a concrete input: the round-trip submission with verify failing
still gets the 200 success response via the fallback transport. -/
theorem c3_verify_fallback_witness :
    (handleContact env0 wVerifyFail saraBody).transporter =
      some Transporter.consoleFallback ∧
    (handleContact env0 wVerifyFail saraBody).response =
      { status := 200, ok := true, message := MSG_SUCCESS } :=
  ⟨(c3_verify_fallback env0 wVerifyFail saraBody rfl (by decide) rfl rfl).2.1,
   (c3_verify_fallback env0 wVerifyFail saraBody rfl (by decide) rfl rfl).2.2⟩

/-- C4: holding the five required fields valid, a truthy projectType string
outside the six-item enumeration is rejected with exactly the
invalid-project-type error, while each enumerated value, the empty string,
and an absent projectType all validate cleanly. -/
theorem c4_projectType_enum (b : Body)
    (h1 : reqStr b.firstName = true) (h2 : reqStr b.lastName = true)
    (h3 : reqStr b.email = true) (h4 : reqStr b.phone = true)
    (h5 : reqStr b.message = true) :
    (∀ s : String, b.projectType = JSVal.str s → s ≠ "" → s ∉ ALLOWED_TYPES →
      validatePayload b = [ERR_TYPE]) ∧
    (∀ s : String, b.projectType = JSVal.str s → s ∈ ALLOWED_TYPES →
      validatePayload b = []) ∧
    (b.projectType = JSVal.str "" → validatePayload b = []) ∧
    (b.projectType = JSVal.undefined → validatePayload b = []) := by
  refine ⟨?_, ?_, ?_, ?_⟩
  · intro s hpt hne hnm
    have ht : truthy b.projectType = true := by
      rw [hpt]; exact bne_iff_ne.mpr hne
    have ha : allowedHas b.projectType = false := by
      rw [hpt]; simpa [allowedHas] using hnm
    simp [validatePayload, h1, h2, h3, h4, h5, ht, ha]
  · intro s hpt hm
    have ha : allowedHas b.projectType = true := by
      rw [hpt]; simpa [allowedHas] using hm
    simp [validatePayload, h1, h2, h3, h4, h5, ha]
  · intro hpt
    have ht : truthy b.projectType = false := by rw [hpt]; rfl
    simp [validatePayload, h1, h2, h3, h4, h5, ht]
  · intro hpt
    have ht : truthy b.projectType = false := by rw [hpt]; rfl
    simp [validatePayload, h1, h2, h3, h4, h5, ht]

/-- C4 at concrete inputs: `"blog"` is rejected with the
invalid-project-type error, `"landing"` passes. -/
theorem c4_projectType_enum_witness :
    validatePayload weirdTypeBody = [ERR_TYPE] ∧
    validatePayload saraBody = [] :=
  ⟨(c4_projectType_enum weirdTypeBody (by decide) (by decide) (by decide)
      (by decide) (by decide)).1 "blog" rfl (by decide) (by decide),
   (c4_projectType_enum saraBody (by decide) (by decide) (by decide)
      (by decide) (by decide)).2.1 "landing" rfl (by decide)⟩

/-- C5: the validator collects every applicable error, in the fixed order
firstName, lastName, email, phone, message, projectType (its output is an
in-order selection from the six messages, and each message appears exactly
when its check fails); on validation failure the 400 response carries the
first error as its message together with the full list. -/
theorem c5_error_collection (env : Env) (w : World) (b : Body) :
    List.Sublist (validatePayload b) ALL_MESSAGES ∧
    (ERR_FIRST ∈ validatePayload b ↔ reqStr b.firstName = false) ∧
    (ERR_LAST ∈ validatePayload b ↔ reqStr b.lastName = false) ∧
    (ERR_EMAIL ∈ validatePayload b ↔ reqStr b.email = false) ∧
    (ERR_PHONE ∈ validatePayload b ↔ reqStr b.phone = false) ∧
    (ERR_MESSAGE ∈ validatePayload b ↔ reqStr b.message = false) ∧
    (ERR_TYPE ∈ validatePayload b ↔
      (truthy b.projectType && !allowedHas b.projectType) = true) ∧
    (isHoneypot b = false → validatePayload b ≠ [] →
      (handleContact env w b).response.status = 400 ∧
      (handleContact env w b).response.message = (validatePayload b).headD "" ∧
      (handleContact env w b).response.errors = validatePayload b) :=
  ⟨validate_sublist b, mem_validate_first b, mem_validate_last b,
   mem_validate_email b, mem_validate_phone b, mem_validate_message b,
   mem_validate_ptype b,
   fun hhp hne =>
     ⟨(handleContact_400 env w b hhp hne).1,
      (handleContact_400 env w b hhp hne).2.2.1,
      (handleContact_400 env w b hhp hne).2.2.2⟩⟩

/-- C5 at a concrete input: the all-absent submission yields all five
required-field errors in order; the 400 response reports the first and
carries the list. -/
theorem c5_error_collection_witness :
    validatePayload missingAllBody =
      [ERR_FIRST, ERR_LAST, ERR_EMAIL, ERR_PHONE, ERR_MESSAGE] ∧
    (handleContact env0 w0 missingAllBody).response.message = ERR_FIRST ∧
    (handleContact env0 w0 missingAllBody).response.errors =
      validatePayload missingAllBody := by
  have h := (c5_error_collection env0 w0 missingAllBody).2.2.2.2.2.2.2
    rfl (by decide)
  exact ⟨by decide, by rw [h.2.1]; decide, h.2.2⟩

/-- C6: the round-trip example's composed plain-text body is exactly the
four labelled lines, the separator, and the literal message, in that
order; with an empty or absent projectType the project-type line carries
the placeholder dash. -/
theorem c6_text_roundtrip :
    ((handleContact env0 w0 saraBody).mail.map MailMsg.text =
      some "الاسم: Sara Ali\nالبريد: sara@example.com\nالهاتف: 0500000000\nنوع المشروع: landing\n---\nHello") ∧
    composeText (JSVal.str "Sara") (JSVal.str "Ali") (JSVal.str "sara@example.com")
        (JSVal.str "0500000000") (JSVal.str "") (JSVal.str "Hello") =
      "الاسم: Sara Ali\nالبريد: sara@example.com\nالهاتف: 0500000000\nنوع المشروع: -\n---\nHello" ∧
    composeText (JSVal.str "Sara") (JSVal.str "Ali") (JSVal.str "sara@example.com")
        (JSVal.str "0500000000") JSVal.undefined (JSVal.str "Hello") =
      "الاسم: Sara Ali\nالبريد: sara@example.com\nالهاتف: 0500000000\nنوع المشروع: -\n---\nHello" :=
  ⟨rfl, rfl, rfl⟩

/-- C7: on a valid, non-honeypot submission, an exception thrown during
transport construction (outside the guarded verify) or during the SMTP
send step yields the generic 500 ok:false response with the fixed failure
message; and globally, every response message the route can produce comes
from the fixed vocabulary (three fixed messages plus the six validator
messages), so internal error detail never reaches the caller. -/
theorem c7_generic_500 (env : Env) (w : World) (b : Body)
    (hhp : isHoneypot b = false) (hval : validatePayload b = []) :
    (w.createThrows = true →
      (handleContact env w b).response =
        { status := 500, ok := false, message := MSG_SEND_FAILED }) ∧
    (w.createThrows = false → w.verifyOk = true → w.smtpSendThrows = true →
      (handleContact env w b).response =
        { status := 500, ok := false, message := MSG_SEND_FAILED }) ∧
    (∀ env2 w2 b2,
      (handleContact env2 w2 b2).response.message ∈ RESPONSE_FIXED ++ ALL_MESSAGES) := by
  refine ⟨fun hc => ?_, fun hc hv hs => ?_,
    fun env2 w2 b2 => response_message_fixed env2 w2 b2⟩
  · simp [handleContact, hhp, validate_checkedBody, hval, getTransporter, hc]
  · simp [handleContact, hhp, validate_checkedBody, hval, getTransporter, hc, hv, hs,
      smtp_beq_smtp]

/-- C7 at concrete inputs: both failure modes yield the generic 500. -/
theorem c7_generic_500_witness :
    (handleContact env0 wCreateThrows saraBody).response =
      { status := 500, ok := false, message := MSG_SEND_FAILED } ∧
    (handleContact env0 wSendThrows saraBody).response =
      { status := 500, ok := false, message := MSG_SEND_FAILED } :=
  ⟨(c7_generic_500 env0 wCreateThrows saraBody rfl (by decide)).1 rfl,
   (c7_generic_500 env0 wSendThrows saraBody rfl (by decide)).2.1 rfl rfl rfl⟩

/-- C8: every sent mail's sender follows MAIL_FROM, then SMTP_USER, then
the fixed placeholder; its recipient follows MAIL_TO, then SMTP_USER, then
the submitter's own email; and reply-to is always the submitter's email. -/
theorem c8_addresses (env : Env) (w : World) (b : Body) (e : String)
    (hhp : isHoneypot b = false) (hval : validatePayload b = [])
    (hcreate : w.createThrows = false) (he : b.email = JSVal.str e) :
    ∃ m, (handleContact env w b).mail = some m ∧
      m.from_ = specSender env ∧
      m.to_ = specRecipient env e ∧
      m.replyTo = e := by
  obtain ⟨hm, -⟩ := handleContact_mail env w b hhp hval hcreate
  refine ⟨_, hm, ?_, ?_, ?_⟩
  · exact fromAddr_eq_specSender env
  · rw [he]; exact toAddr_eq_specRecipient env e
  · rw [he]; rfl

/-- C8 at a concrete input: with all variables set, the mail uses MAIL_FROM
and MAIL_TO, and replies to the submitter. -/
theorem c8_addresses_witness :
    ∃ m, (handleContact envFull w0 saraBody).mail = some m ∧
      m.from_ = specSender envFull ∧
      m.to_ = specRecipient envFull "sara@example.com" ∧
      m.replyTo = "sara@example.com" :=
  c8_addresses envFull w0 saraBody "sara@example.com" rfl (by decide) rfl rfl

/-- C9: the validator is deterministic — evaluating it twice on the same
input yields the same list — and its output depends only on the six
validated fields (no hidden state; in particular `company` is ignored).
Purity is by construction: `validatePayload` is a total function of its
argument. -/
theorem c9_deterministic (b b2 : Body)
    (hf : b.firstName = b2.firstName) (hl : b.lastName = b2.lastName)
    (he : b.email = b2.email) (hp : b.phone = b2.phone)
    (hpt : b.projectType = b2.projectType) (hm : b.message = b2.message) :
    validatePayload b = validatePayload b ∧
    validatePayload b = validatePayload b2 := by
  refine ⟨rfl, ?_⟩
  unfold validatePayload
  rw [hf, hl, he, hp, hpt, hm]

/-- C9 at a concrete input: two bodies equal on all validated fields but
differing in `company` validate identically. -/
theorem c9_deterministic_witness :
    validatePayload missingAllBody =
      validatePayload { company := JSVal.str "x" } :=
  (c9_deterministic missingAllBody { company := JSVal.str "x" }
    rfl rfl rfl rfl rfl rfl).2

/-- C10: a required field holding a present but non-string value (number,
boolean, array, object, null) fails the typeof check in `reqStr` and
yields the corresponding required-field error, as if the field were
missing. -/
theorem c10_nonstring_missing (b : Body) :
    (isStringVal b.firstName = false → ERR_FIRST ∈ validatePayload b) ∧
    (isStringVal b.lastName = false → ERR_LAST ∈ validatePayload b) ∧
    (isStringVal b.email = false → ERR_EMAIL ∈ validatePayload b) ∧
    (isStringVal b.phone = false → ERR_PHONE ∈ validatePayload b) ∧
    (isStringVal b.message = false → ERR_MESSAGE ∈ validatePayload b) := by
  have key : ∀ v : JSVal, isStringVal v = false → reqStr v = false := by
    intro v hv
    cases v <;> first | rfl | exact absurd hv (by simp [isStringVal])
  exact ⟨fun h => (mem_validate_first b).mpr (key _ h),
    fun h => (mem_validate_last b).mpr (key _ h),
    fun h => (mem_validate_email b).mpr (key _ h),
    fun h => (mem_validate_phone b).mpr (key _ h),
    fun h => (mem_validate_message b).mpr (key _ h)⟩

/-- C10 at a concrete input: a truthy number in `firstName` and a null
`message` both produce the corresponding required-field errors. -/
theorem c10_nonstring_missing_witness :
    truthy nonStringBody.firstName = true ∧
    ERR_FIRST ∈ validatePayload nonStringBody ∧
    ERR_MESSAGE ∈ validatePayload nonStringBody :=
  ⟨rfl, (c10_nonstring_missing nonStringBody).1 rfl,
   (c10_nonstring_missing nonStringBody).2.2.2.2 rfl⟩
